import Mathlib

/-!
Verification of the document parsing coordinator of `vue-eslint-parser`
(`src/index.ts`).  The coordinator classifies a document as plain script or
markup-embedded component, locates the `<template>` and `<script>` blocks,
drives the script collaborator over the extracted text, remaps positions into
whole-document coordinates and assembles the extended program.

The markup tokenizer/parser (`src/html`), the script driver (`src/script`),
the location calculator (`src/common/location-calculator`) and the service map
(`src/parser-services`) are external collaborators of the coordinator; where
their behaviour matters they are either taken as parameters (a `Collaborators`
record) or modelled from the specification, as marked on each definition.
-/

set_option autoImplicit false

namespace VueCoordinator

/-! ## JavaScript-style objects

`options: any` in the source is a JavaScript object: an ordered collection of
string-keyed properties.  We model such objects as association lists and
`Object.assign` as a left fold of single-key updates, which matches the
JavaScript semantics of copying the source's own enumerable properties onto
the target one by one. -/

/-- Property values that appear in parser configurations (§6 of the spec):
booleans, numbers and strings. -/
inductive JsValue where
  | bool (b : Bool)
  | num (n : Int)
  | str (s : String)
  deriving DecidableEq, Repr

/-- A JavaScript-style object: ordered key/value properties. -/
abbrev ObjMap (α : Type) : Type := List (String × α)

/-- Property read `o[key]`: the value at the first matching key, if any. -/
def ObjMap.lookup {α : Type} : ObjMap α → String → Option α
  | [], _ => none
  | (k, v) :: rest, key => if k = key then some v else ObjMap.lookup rest key

/-- Property write `o[key] = v`: replaces the value at an existing key,
otherwise appends the property. -/
def ObjMap.setKey {α : Type} : ObjMap α → String → α → ObjMap α
  | [], key, v => [(key, v)]
  | (k, w) :: rest, key, v =>
      if k = key then (k, v) :: rest else (k, w) :: ObjMap.setKey rest key v

/-- Semantics of `Object.assign(target, source)`: every property of `source`
is written onto `target`, in order. -/
def ObjMap.assign {α : Type} (target source : ObjMap α) : ObjMap α :=
  source.foldl (fun m kv => ObjMap.setKey m kv.1 kv.2) target

/-- The keys of an object, in order. -/
def ObjMap.keys {α : Type} (m : ObjMap α) : List String := m.map Prod.fst

theorem ObjMap.lookup_setKey {α : Type} (m : ObjMap α) (k : String) (v : α)
    (key : String) :
    ObjMap.lookup (ObjMap.setKey m k v) key =
      if k = key then some v else ObjMap.lookup m key := by
  induction m with
  | nil => simp [ObjMap.setKey, ObjMap.lookup]
  | cons hd tl ih =>
      obtain ⟨k', v'⟩ := hd
      by_cases h1 : k' = k
      · subst h1
        by_cases h2 : k' = key <;>
          simp [ObjMap.setKey, ObjMap.lookup, h2]
      · by_cases h2 : k' = key
        · subst h2
          have h1' : ¬ k = k' := fun h => h1 h.symm
          simp [ObjMap.setKey, ObjMap.lookup, h1, h1']
        · simp [ObjMap.setKey, ObjMap.lookup, h1, h2, ih]

theorem ObjMap.lookup_eq_none_of_not_mem_keys {α : Type} (m : ObjMap α)
    (key : String) (h : key ∉ ObjMap.keys m) :
    ObjMap.lookup m key = none := by
  induction m with
  | nil => rfl
  | cons hd tl ih =>
      obtain ⟨k, v⟩ := hd
      simp only [ObjMap.keys, List.map_cons, List.mem_cons, not_or] at h
      obtain ⟨h1, h2⟩ := h
      have hk : ¬ k = key := fun hk => h1 hk.symm
      simp only [ObjMap.lookup, hk, if_false]
      exact ih (by simpa [ObjMap.keys] using h2)

/-- Lookup in an `Object.assign` result: the source's property wins when
present, otherwise the target's survives.  The source, being a JavaScript
object, has no duplicate keys. -/
theorem ObjMap.lookup_assign {α : Type} (target source : ObjMap α)
    (key : String) (hnd : (ObjMap.keys source).Nodup) :
    ObjMap.lookup (ObjMap.assign target source) key =
      (ObjMap.lookup source key).orElse (fun _ => ObjMap.lookup target key) := by
  induction source generalizing target with
  | nil => simp [ObjMap.assign, ObjMap.lookup, Option.orElse]
  | cons hd tl ih =>
      obtain ⟨k, v⟩ := hd
      simp only [ObjMap.keys, List.map_cons, List.nodup_cons] at hnd
      have step : ObjMap.assign target ((k, v) :: tl) =
          ObjMap.assign (ObjMap.setKey target k v) tl := rfl
      rw [step, ih _ hnd.2]
      by_cases h : k = key
      · subst h
        have : ObjMap.lookup tl k = none :=
          ObjMap.lookup_eq_none_of_not_mem_keys tl k (by
            simpa [ObjMap.keys] using hnd.1)
        simp [this, ObjMap.lookup, ObjMap.lookup_setKey, Option.orElse]
      · simp [ObjMap.lookup, ObjMap.lookup_setKey, h, Option.orElse]

/-! ## Path extension (`path.extname`, POSIX) -/

/-- Last path component: the characters after the final `/`, with trailing
slashes ignored, as Node's `path` module does. -/
def pathBase (p : String) : List Char :=
  ((p.data.reverse.dropWhile (· = '/')).takeWhile (· ≠ '/')).reverse

/-- Model of Node's `path.extname` (POSIX): the suffix of the last path
component from its final `.`, unless that dot is the component's first
character or the component is `..`. -/
def extname (p : String) : String :=
  let b := pathBase p
  let afterDot := (b.reverse.takeWhile (· ≠ '.')).reverse
  if afterDot.length = b.length then ""          -- no dot at all
  else if afterDot.length + 1 = b.length then "" -- the dot is the first char
  else if b = ['.', '.'] then ""
  else ('.' :: afterDot).asString

/-! ## File classifier (`isVueFile`, src/index.ts lines 13, 21-24) -/

/-- Whitespace class of the regular expression `\s` (the ASCII part together
with NBSP, BOM and line/paragraph separators; the remaining Unicode space
separators are omitted uniformly on both sides of the comparison). -/
def isJsWhitespace (c : Char) : Bool :=
  c = ' ' || c = '\t' || c = '\n' || c = '\r' || c = '\x0b' || c = '\x0c' ||
  c = ' ' || c = ' ' || c = ' ' || c = '﻿'

/-- Matching of the regular expression `STARTS_WITH_LT = /^\s*</`
(src/index.ts line 13): skip leading whitespace, then expect `<`. -/
def startsWithLTAux : List Char → Bool
  | [] => false
  | c :: cs => if c = '<' then true else if isJsWhitespace c then startsWithLTAux cs else false

/-- Test `STARTS_WITH_LT.test code`. -/
def startsWithLT (code : String) : Bool :=
  startsWithLTAux code.data

/-- Placeholder file name substituted when no (truthy) `filePath` option is
given (src/index.ts line 22). -/
def placeholderFileName : String := "unknown.js"

/-- Read the `filePath` option (`options.filePath as string | undefined`).
A non-string value is outside the interface (§6 restricts `filePath` to an
optional string) and is treated as absent. -/
def optFilePath (options : ObjMap JsValue) : Option String :=
  match ObjMap.lookup options "filePath" with
  | some (JsValue.str s) => some s
  | _ => none

/-- File classifier `isVueFile` (src/index.ts lines 21-24):
`path.extname(options.filePath || "unknown.js") === ".vue" ||
STARTS_WITH_LT.test(code)`.  The `||` default also replaces an empty-string
`filePath`, which is falsy in JavaScript. -/
def isVueFile (code : String) (options : ObjMap JsValue) : Bool :=
  let filePath :=
    match optFilePath options with
    | some s => if s = "" then placeholderFileName else s
    | none => placeholderFileName
  extname filePath == ".vue" || startsWithLT code

/-! ## Option merging (src/index.ts lines 51-57) -/

/-- The fixed defaults of `parseForESLint`. -/
def defaultOptions : ObjMap JsValue :=
  [("comment", JsValue.bool true),
   ("ecmaVersion", JsValue.num 2015),
   ("loc", JsValue.bool true),
   ("range", JsValue.bool true),
   ("tokens", JsValue.bool true)]

/-- Merging of the caller's options over the defaults:
`Object.assign({...defaults}, options || {})` with a fresh target object.
A `none` caller object models `null`/`undefined`. -/
def mergeOptions (options : Option (ObjMap JsValue)) : ObjMap JsValue :=
  ObjMap.assign defaultOptions (options.getD [])

/-! ## Markup tree (the `AST.VNode` interface consumed from `src/html`) -/

/-- Offset range `[start, end)` of a node, token or comment. -/
abbrev SrcRange : Type := Nat × Nat

/-- Markup node (`AST.VNode`): a tagged union of elements (with a tag name,
a source range and ordered children), text nodes (carrying their value) and
comment nodes. -/
inductive VNode where
  | element (name : String) (range : SrcRange) (children : List VNode)
  | text (range : SrcRange) (value : String)
  | comment (range : SrcRange) (value : String)
  deriving Repr

/-- Source range of a markup node. -/
def VNode.rangeOf : VNode → SrcRange
  | .element _ r _ => r
  | .text r _ => r
  | .comment r _ => r

/-- Check `node.type === "VElement" && node.name === "template"`
(src/index.ts lines 31-33). -/
def isTemplateElement (node : VNode) : Bool :=
  match node with
  | .element name _ _ => name == "template"
  | _ => false

/-- Check `node.type === "VElement" && node.name === "script"`
(src/index.ts lines 40-42). -/
def isScriptElement (node : VNode) : Bool :=
  match node with
  | .element name _ _ => name == "script"
  | _ => false

/-- A markup or script token: its kind/value and source range. -/
structure Token where
  value : String
  range : SrcRange
  deriving DecidableEq, Repr

/-- A recovered markup parse error: message and source index. -/
structure ParseError where
  message : String
  index : Nat
  deriving DecidableEq, Repr

/-- Gap record (§3 of the spec): a pair of an offset in the extracted text
and a length in the original document, marking a region invisible to the
extracted script substring. -/
structure Gap where
  offset : Nat
  length : Nat
  deriving DecidableEq, Repr

/-- Combined output of `new HTMLTokenizer(code)` and
`new HTMLParser(tokenizer, options).parse()` as consumed by the coordinator:
the root's ordered children, the document-wide token/comment/error lists
(`rootAST.tokens/comments/errors`) and the tokenizer's gap and
line-terminator indices (`tokenizer.gaps`, `tokenizer.lineTerminators`). -/
structure HTMLParseResult where
  children : List VNode
  tokens : List Token
  comments : List Token
  errors : List ParseError
  gaps : List Gap
  lineTerminators : List Nat

/-- Location calculator state (src/common/location-calculator, consumed per
its contract in §4.4): the gap records and the line-terminator index.  Only
the offset translation is needed for the claims; line/column pairs are
derived from translated offsets. -/
structure LocationCalculator where
  gaps : List Gap
  lineTerminators : List Nat

/-- Offset translation (§4.4): add to `o` the length of every gap record
whose offset in the extracted text is at most `o`. -/
def LocationCalculator.toDocumentOffset (c : LocationCalculator) (o : Nat) : Nat :=
  o + c.gaps.foldl (fun acc g => if g.offset ≤ o then acc + g.length else acc) 0

/-! ## Script program (the `AST.ESLintExtendedProgram` interface) -/

/-- A script AST node: its source range and ordered children.  The claims
about the script tree concern only the recorded positions, so node kinds and
other payload are not modelled. -/
inductive SNode where
  | mk (range : SrcRange) (children : List SNode)
  deriving Repr

mutual

/-- Ranges of a script node and of all its descendants. -/
def SNode.ranges : SNode → List SrcRange
  | .mk r children => r :: SNode.rangesList children

/-- Ranges of all nodes of a script node list. -/
def SNode.rangesList : List SNode → List SrcRange
  | [] => []
  | n :: rest => SNode.ranges n ++ SNode.rangesList rest

end

/-- Template body: the located `<template>` element together with the
Concrete Info added by `Object.assign(template, concreteInfo)`
(src/index.ts lines 71-78).  The element itself is kept whole, so its
structural fields are exactly those the markup collaborator produced. -/
structure TemplateBody where
  elem : VNode
  tokens : List Token
  comments : List Token
  errors : List ParseError

/-- Script program (`AST.ESLintProgram`): the program node's range, its
statements, tokens and comments, and the optional template body the
coordinator attaches. -/
structure ESLintProgram where
  range : SrcRange
  body : List SNode
  tokens : List Token
  comments : List Token
  templateBody : Option TemplateBody

/-- Abstract handle of a traversal service (a callable capability). -/
abbrev ServiceVal : Type := Nat

/-- Extended program (`AST.ESLintExtendedProgram`): the program together with
the optional service map a parser attached. -/
structure ESLintExtendedProgram where
  ast : ESLintProgram
  services : Option (ObjMap ServiceVal)

/-- All positions of the script AST proper: the program range, every node
range of the statement trees, and every token and comment range.  The
attached template body is markup, not script, and is excluded. -/
def allScriptRanges (p : ESLintProgram) : List SrcRange :=
  p.range :: (SNode.rangesList p.body ++
    p.tokens.map Token.range ++ p.comments.map Token.range)

/-! ## Position remapping (§4.3, modelled; real code in `src/script.ts`) -/

/-- Translation of one range endpoint pair through the calculator. -/
def remapRange (c : LocationCalculator) (r : SrcRange) : SrcRange :=
  (c.toDocumentOffset r.1, c.toDocumentOffset r.2)

mutual

/-- Exhaustive translation of a script node tree's positions. -/
def remapSNode (c : LocationCalculator) : SNode → SNode
  | .mk r children => .mk (remapRange c r) (remapSNodeList c children)

/-- Exhaustive translation of a script node list's positions. -/
def remapSNodeList (c : LocationCalculator) : List SNode → List SNode
  | [] => []
  | n :: rest => remapSNode c n :: remapSNodeList c rest

end

/-- Translation of a token's position. -/
def remapToken (c : LocationCalculator) (t : Token) : Token :=
  { t with range := remapRange c t.range }

/-- Modelled from the spec: the remapping step of the Script Driver (§4.3) —
translate the start and end offsets of every node, token and comment of the
script parser's output, visiting the tree and the token/comment lists
exhaustively.  The real implementation lives in `src/script.ts`, which is not
under `src/`. -/
def remapProgram (c : LocationCalculator) (p : ESLintProgram) : ESLintProgram :=
  { range := remapRange c p.range,
    body := remapSNodeList c p.body,
    tokens := p.tokens.map (remapToken c),
    comments := p.comments.map (remapToken c),
    templateBody := p.templateBody }

/-! ## Script driver (§4.3, modelled; real code in `src/script.ts`) -/

/-- Modelled from the spec: extraction of a script element's inner text and
its starting offset (§4.3).  The element's inner text is its leading text
child's value, starting at that child's range start; an element with no text
content yields the empty string at the element's own start.  The real
extraction lives in `src/script.ts`, which is not under `src/`. -/
def scriptInner (el : VNode) : String × Nat :=
  match el with
  | .element _ _ (VNode.text (s, _) v :: _) => (v, s)
  | .element _ r _ => ("", r.1)
  | n => ("", n.rangeOf.1)

/-- Modelled from the spec: `parseScriptElement` of the Script Driver (§4.3)
— extract the element's inner text and starting offset, build the gap record
covering everything before that offset, invoke the script collaborator `sp`
on the extracted text, and remap every resulting position.  The tokenizer's
own character-normalisation gaps are not modelled; the only gap is the markup
before the script content.  The real code is `src/script.ts`, not under
`src/`. -/
def parseScriptElement (sp : String → ObjMap JsValue → ESLintExtendedProgram)
    (el : VNode) (locCalc : LocationCalculator) (options : ObjMap JsValue) :
    ESLintExtendedProgram :=
  let inner := scriptInner el
  let subCalc : LocationCalculator :=
    { gaps := [⟨0, inner.2⟩], lineTerminators := locCalc.lineTerminators }
  let raw := sp inner.1 options
  { raw with ast := remapProgram subCalc raw.ast }

/-! ## The coordinator (`parseForESLint`, src/index.ts lines 50-84) -/

/-- External collaborators of the coordinator, as consumed through their
interfaces (§1, §6): the markup tokenizer/parser, the script collaborator
`parseScript`, and the fixed template-traversal service map imported from
`src/parser-services`. -/
structure Collaborators where
  htmlParse : String → ObjMap JsValue → HTMLParseResult
  parseScript : String → ObjMap JsValue → ESLintExtendedProgram
  services : ObjMap ServiceVal

/-- Script-driver step of the markup path (src/index.ts lines 66-70): locate
the first top-level script element and parse it through `parseScriptElement`
with the document's location calculator, or parse the empty string when there
is none. -/
def scriptDriverResult (C : Collaborators) (code : String)
    (options : ObjMap JsValue) : ESLintExtendedProgram :=
  let r := C.htmlParse code options
  let locationCalcurator : LocationCalculator :=
    { gaps := r.gaps, lineTerminators := r.lineTerminators }
  match r.children.find? isScriptElement with
  | some script => parseScriptElement C.parseScript script locationCalcurator options
  | none => C.parseScript "" options

/-- Markup-embedded path of `parseForESLint` (src/index.ts lines 63-83):
parse the markup, drive the script collaborator, attach the template body
built from the first top-level template element and the document-wide
Concrete Info, and overlay the fixed traversal services onto the script
collaborator's services. -/
def parseVueDocument (C : Collaborators) (code : String)
    (options : ObjMap JsValue) : ESLintExtendedProgram :=
  let r := C.htmlParse code options
  let result := scriptDriverResult C code options
  let templateBody : Option TemplateBody :=
    match r.children.find? isTemplateElement with
    | some template => some ⟨template, r.tokens, r.comments, r.errors⟩
    | none => none
  let result := { result with ast := { result.ast with templateBody := templateBody } }
  { result with
    services := some (ObjMap.assign (result.services.getD []) C.services) }

/-- The coordinator `parseForESLint` (src/index.ts lines 50-84): merge the
defaults into the caller's options, then parse either as a plain script or as
a markup-embedded component according to `isVueFile`. -/
def parseForESLint (C : Collaborators) (code : String)
    (options0 : Option (ObjMap JsValue)) : ESLintExtendedProgram :=
  let options := mergeOptions options0
  if isVueFile code options then parseVueDocument C code options
  else C.parseScript code options

/-! ## Definitions following the specification's words

These definitions are written from the specification text, to be compared
with the ones taken from the source. -/

/-- Wording of §4.1: the text, ignoring leading whitespace, begins with
`<`. -/
def specSniff (code : String) : Bool :=
  (code.data.dropWhile isJsWhitespace).head? = some '<'

/-- Wording of §4.1, in priority order: a supplied file path whose extension
matches the component-file extension, else the content sniff. -/
def specClassifierMarkup (code : String) (filePath : Option String) : Bool :=
  match filePath with
  | some p => if extname p = ".vue" then true else specSniff code
  | none => specSniff code

/-- Wording of §4.2: the first child that is an Element with the given name,
scanning in document order. -/
def firstElementNamed (name : String) : List VNode → Option VNode
  | [] => none
  | n :: rest =>
      match n with
      | .element nm _ _ => if nm = name then some n else firstElementNamed name rest
      | _ => firstElementNamed name rest

/-! ## Concrete sample collaborators

Small concrete instances of the collaborator interfaces, used to evaluate
the theorems on closed inputs. -/

/-- Markup result for the document
`"<template><div/></template><script>var x = 1</script>"`: a template
element and a script element whose inner text `"var x = 1"` spans offsets
35-44. -/
def sampleHtml : HTMLParseResult :=
  { children :=
      [VNode.element "template" (0, 27) [VNode.element "div" (10, 16) []],
       VNode.element "script" (27, 53) [VNode.text (35, 44) "var x = 1"]],
    tokens := [⟨"<template>", (0, 10)⟩, ⟨"<script>", (27, 35)⟩],
    comments := [⟨"note", (20, 25)⟩],
    errors := [⟨"eof-in-tag", 50⟩],
    gaps := [],
    lineTerminators := [] }

/-- Markup result for a document with a template but no script block. -/
def sampleHtmlNoScript : HTMLParseResult :=
  { children := [VNode.element "template" (0, 27) [VNode.element "div" (10, 16) []]],
    tokens := [⟨"<template>", (0, 10)⟩],
    comments := [],
    errors := [],
    gaps := [],
    lineTerminators := [] }

/-- Script collaborator sample: positions local to the given text, no
template body, and an own service map that collides with the coordinator's
on one key. -/
def sampleScriptParse (text : String) (_options : ObjMap JsValue) :
    ESLintExtendedProgram :=
  { ast := { range := (0, text.length),
             body := if text.isEmpty then []
                     else [SNode.mk (0, text.length) [SNode.mk (0, 3) []]],
             tokens := if text.isEmpty then [] else [⟨"tok", (0, 3)⟩],
             comments := [],
             templateBody := none },
    services := some [("defineTemplateBodyVisitor", 99), ("scriptOnly", 7)] }

/-- Sample collaborators: document with both blocks. -/
def sampleCollab : Collaborators :=
  { htmlParse := fun _ _ => sampleHtml,
    parseScript := sampleScriptParse,
    services := [("defineTemplateBodyVisitor", 1), ("getTemplateBodyTokenStore", 2)] }

/-- Sample collaborators: document without a script block. -/
def sampleCollabNoScript : Collaborators :=
  { sampleCollab with htmlParse := fun _ _ => sampleHtmlNoScript }

/-! ## Helper lemmas -/

theorem startsWithLT_eq_specSniff (code : String) :
    startsWithLT code = specSniff code := by
  show startsWithLTAux code.data = specSniff code
  unfold specSniff
  induction code.data with
  | nil => rfl
  | cons c cs ih =>
      by_cases hc : c = '<'
      · subst hc
        simp [startsWithLTAux, List.dropWhile_cons, isJsWhitespace]
      · by_cases hw : isJsWhitespace c = true
        · simp [startsWithLTAux, List.dropWhile_cons, hc, hw, ih]
        · simp only [Bool.not_eq_true] at hw
          simp [startsWithLTAux, List.dropWhile_cons, hc, hw]

theorem isVueFile_eq_spec (code : String) (options : ObjMap JsValue) :
    isVueFile code options = specClassifierMarkup code (optFilePath options) := by
  unfold isVueFile specClassifierMarkup
  have hunknown : (extname placeholderFileName == ".vue") = false := by decide
  have hempty : (extname "" == ".vue") = false := by decide
  cases hfp : optFilePath options with
  | none => simp [hunknown, startsWithLT_eq_specSniff]
  | some s =>
      by_cases hs : s = ""
      · subst hs
        simp [hunknown, hempty, startsWithLT_eq_specSniff]
        exact fun h => absurd h (by decide)
      · by_cases hv : extname s = ".vue" <;>
          simp [hs, hv, startsWithLT_eq_specSniff]

theorem find?_isScriptElement_eq (children : List VNode) :
    children.find? isScriptElement = firstElementNamed "script" children := by
  induction children with
  | nil => rfl
  | cons n rest ih =>
      cases n with
      | element nm r cs =>
          by_cases h : nm = "script" <;>
            simp [List.find?_cons, isScriptElement, firstElementNamed, h, ih]
      | text r v => simp [List.find?_cons, isScriptElement, firstElementNamed, ih]
      | comment r v => simp [List.find?_cons, isScriptElement, firstElementNamed, ih]

theorem find?_isTemplateElement_eq (children : List VNode) :
    children.find? isTemplateElement = firstElementNamed "template" children := by
  induction children with
  | nil => rfl
  | cons n rest ih =>
      cases n with
      | element nm r cs =>
          by_cases h : nm = "template" <;>
            simp [List.find?_cons, isTemplateElement, firstElementNamed, h, ih]
      | text r v => simp [List.find?_cons, isTemplateElement, firstElementNamed, ih]
      | comment r v => simp [List.find?_cons, isTemplateElement, firstElementNamed, ih]

theorem firstElementNamed_append_of_some (name : String) (l₁ l₂ : List VNode)
    (x : VNode) (h : firstElementNamed name l₁ = some x) :
    firstElementNamed name (l₁ ++ l₂) = some x := by
  induction l₁ with
  | nil => simp [firstElementNamed] at h
  | cons n rest ih =>
      cases n with
      | element nm r cs =>
          by_cases hn : nm = name
          · simp [firstElementNamed, hn] at h ⊢
            exact h
          · simp [firstElementNamed, hn] at h ⊢
            exact ih h
      | text r v =>
          simp [firstElementNamed] at h ⊢
          exact ih h
      | comment r v =>
          simp [firstElementNamed] at h ⊢
          exact ih h

theorem rangesList_remapSNodeList (c : LocationCalculator) (l : List SNode) :
    SNode.rangesList (remapSNodeList c l) = (SNode.rangesList l).map (remapRange c) := by
  have main : ∀ n : SNode,
      SNode.ranges (remapSNode c n) = (SNode.ranges n).map (remapRange c) := by
    intro n
    refine SNode.rec
      (motive_1 := fun n =>
        SNode.ranges (remapSNode c n) = (SNode.ranges n).map (remapRange c))
      (motive_2 := fun l =>
        SNode.rangesList (remapSNodeList c l) =
          (SNode.rangesList l).map (remapRange c))
      ?_ ?_ ?_ n
    · intro r children ih
      simp [remapSNode, SNode.ranges, ih]
    · simp [remapSNodeList, SNode.rangesList]
    · intro hd tl ih1 ih2
      simp [remapSNodeList, SNode.rangesList, ih1, ih2]
  induction l with
  | nil => simp [remapSNodeList, SNode.rangesList]
  | cons hd tl ih => simp [remapSNodeList, SNode.rangesList, main hd, ih]

theorem allScriptRanges_remapProgram (c : LocationCalculator) (p : ESLintProgram) :
    allScriptRanges (remapProgram c p) = (allScriptRanges p).map (remapRange c) := by
  simp [allScriptRanges, remapProgram, rangesList_remapSNodeList, remapToken,
    Function.comp_def]

theorem toDocumentOffset_single_gap (s : Nat) (lts : List Nat) (o : Nat) :
    LocationCalculator.toDocumentOffset ⟨[⟨0, s⟩], lts⟩ o = o + s := by
  simp [LocationCalculator.toDocumentOffset]

theorem allScriptRanges_set_templateBody (p : ESLintProgram)
    (tb : Option TemplateBody) :
    allScriptRanges { p with templateBody := tb } = allScriptRanges p := rfl

theorem allScriptRanges_parseVueDocument (C : Collaborators) (code : String)
    (options : ObjMap JsValue) :
    allScriptRanges ((parseVueDocument C code options).ast) =
      allScriptRanges ((scriptDriverResult C code options).ast) := rfl

/-! ## The claims -/

/-- Claim C1: for every document text and configuration, `parseForESLint`
takes the markup-embedded path if and only if either a supplied `filePath`'s
extension matches the component-file extension `.vue` or the text, ignoring
leading whitespace, begins with `<`; otherwise it takes the plain-script
path.  The extension check has priority (the spec-side classifier tries it
first) and the classifier never fails (it is a total Boolean function). -/
theorem claimC1_classifier_path (C : Collaborators) (code : String)
    (options0 : Option (ObjMap JsValue)) :
    parseForESLint C code options0 =
      if specClassifierMarkup code (optFilePath (mergeOptions options0)) then
        parseVueDocument C code (mergeOptions options0)
      else
        C.parseScript code (mergeOptions options0) := by
  show (if isVueFile code (mergeOptions options0) = true then
      parseVueDocument C code (mergeOptions options0)
    else C.parseScript code (mergeOptions options0)) = _
  rw [isVueFile_eq_spec]

/-- Claim C4, counterexample: the placeholder file name substituted when no
file path is supplied is `"unknown.js"`, whose extension is `".js"` — it is
not an extension-less name as the claim states. -/
theorem claimC4_counterexample :
    extname placeholderFileName = ".js" ∧ extname placeholderFileName ≠ "" := by
  decide

/-- Claim C4 as amended: for every call in which no file path is supplied,
the classifier substitutes the placeholder name `"unknown.js"`; its `".js"`
extension never matches `".vue"`, so the extension check never matches and
classification is decided solely by the leading-`<` content sniff. -/
theorem claimC4_no_filepath_sniff_only (code : String) (options : ObjMap JsValue)
    (h : ObjMap.lookup options "filePath" = none) :
    isVueFile code options = startsWithLT code ∧
      extname placeholderFileName = ".js" ∧ extname placeholderFileName ≠ ".vue" := by
  refine ⟨?_, by decide, by decide⟩
  unfold isVueFile optFilePath
  rw [h]
  simp [(by decide : (extname placeholderFileName == ".vue") = false)]

theorem claimC4_witness :
    ObjMap.lookup ([] : ObjMap JsValue) "filePath" = none ∧
      (isVueFile "<template/>" [] = startsWithLT "<template/>" ∧
        extname placeholderFileName = ".js" ∧ extname placeholderFileName ≠ ".vue") :=
  ⟨rfl, claimC4_no_filepath_sniff_only "<template/>" [] rfl⟩

/-- Claim C5: for every markup root, the coordinator selects the first
top-level child that is an Element named `"script"` and, independently, the
first top-level child that is an Element named `"template"`, in document
order (the `find?` calls of src/index.ts lines 66-67 equal the spec-side
first-match scan).  Only the top-level child list is scanned, so nested
elements of those names are never candidates, and any later duplicate
top-level blocks are silently ignored (appending further children after a
match never changes the selection) without raising an error (the locator is
total). -/
theorem claimC5_block_locator :
    (∀ children : List VNode,
        children.find? isScriptElement = firstElementNamed "script" children) ∧
    (∀ children : List VNode,
        children.find? isTemplateElement = firstElementNamed "template" children) ∧
    (∀ (name : String) (l₁ l₂ : List VNode) (x : VNode),
        firstElementNamed name l₁ = some x →
        firstElementNamed name (l₁ ++ l₂) = some x) :=
  ⟨find?_isScriptElement_eq, find?_isTemplateElement_eq,
    fun name l₁ l₂ x h => firstElementNamed_append_of_some name l₁ l₂ x h⟩

theorem claimC5_witness :
    ([VNode.text (0, 1) "x",
      VNode.element "script" (1, 10) [],
      VNode.element "script" (11, 20) []].find? isScriptElement =
        firstElementNamed "script"
          [VNode.text (0, 1) "x",
           VNode.element "script" (1, 10) [],
           VNode.element "script" (11, 20) []]) ∧
    firstElementNamed "script"
        ([VNode.element "script" (1, 10) []] ++ [VNode.element "script" (11, 20) []]) =
      some (VNode.element "script" (1, 10) []) :=
  ⟨claimC5_block_locator.1 _,
    claimC5_block_locator.2.2 "script" [VNode.element "script" (1, 10) []]
      [VNode.element "script" (11, 20) []] (VNode.element "script" (1, 10) []) rfl⟩

/-- Claim C10: for every call to `parseForESLint`, the effective
configuration is the caller-supplied options (or an empty object when the
options argument is `null`/`undefined`) merged over the fixed defaults
`comment = true`, `ecmaVersion = 2015`, `loc = true`, `range = true`,
`tokens = true`, with caller-supplied property values taking precedence; the
merge builds a fresh object (`mergeOptions` is a pure function of its
argument, which is left untouched). -/
theorem claimC10_option_merge (caller : ObjMap JsValue)
    (hnd : (ObjMap.keys caller).Nodup) :
    (∀ key, ObjMap.lookup (mergeOptions (some caller)) key =
        (ObjMap.lookup caller key).orElse
          (fun _ => ObjMap.lookup defaultOptions key)) ∧
    (∀ key, ObjMap.lookup (mergeOptions none) key =
        ObjMap.lookup defaultOptions key) ∧
    ObjMap.lookup defaultOptions "comment" = some (JsValue.bool true) ∧
    ObjMap.lookup defaultOptions "ecmaVersion" = some (JsValue.num 2015) ∧
    ObjMap.lookup defaultOptions "loc" = some (JsValue.bool true) ∧
    ObjMap.lookup defaultOptions "range" = some (JsValue.bool true) ∧
    ObjMap.lookup defaultOptions "tokens" = some (JsValue.bool true) :=
  ⟨fun key => ObjMap.lookup_assign defaultOptions caller key hnd,
    fun _ => rfl, rfl, rfl, rfl, rfl, rfl⟩

theorem claimC10_witness :
    (ObjMap.keys [("ecmaVersion", JsValue.num 2018), ("filePath", JsValue.str "a.vue")]).Nodup ∧
    ObjMap.lookup (mergeOptions (some [("ecmaVersion", JsValue.num 2018),
        ("filePath", JsValue.str "a.vue")])) "ecmaVersion" = some (JsValue.num 2018) ∧
    ObjMap.lookup (mergeOptions (some [("ecmaVersion", JsValue.num 2018),
        ("filePath", JsValue.str "a.vue")])) "loc" = some (JsValue.bool true) := by
  refine ⟨by decide, ?_, ?_⟩
  · exact ((claimC10_option_merge _ (by decide)).1 "ecmaVersion").trans (by decide)
  · exact ((claimC10_option_merge _ (by decide)).1 "loc").trans (by decide)

/-- Claim C2: for every document classified PlainScript, the result returned
by `parseForESLint` equals the result of invoking the script collaborator
directly on the whole document text with the merged configuration, and —
since a plain script program carries no template body (§6 collaborator
interface) — the result has no `templateBody`. -/
theorem claimC2_plain_script (C : Collaborators) (code : String)
    (options0 : Option (ObjMap JsValue))
    (h : isVueFile code (mergeOptions options0) = false)
    (htb : (C.parseScript code (mergeOptions options0)).ast.templateBody = none) :
    parseForESLint C code options0 = C.parseScript code (mergeOptions options0) ∧
    (parseForESLint C code options0).ast.templateBody = none := by
  have heq : parseForESLint C code options0 =
      C.parseScript code (mergeOptions options0) := by
    show (if isVueFile code (mergeOptions options0) = true then
        parseVueDocument C code (mergeOptions options0)
      else C.parseScript code (mergeOptions options0)) = _
    simp [h]
  exact ⟨heq, by rw [heq]; exact htb⟩

theorem claimC2_witness :
    isVueFile "var x = 1" (mergeOptions none) = false ∧
    (parseForESLint sampleCollab "var x = 1" none =
        sampleCollab.parseScript "var x = 1" (mergeOptions none) ∧
      (parseForESLint sampleCollab "var x = 1" none).ast.templateBody = none) :=
  ⟨by decide, claimC2_plain_script sampleCollab "var x = 1" none (by decide) rfl⟩

/-- Claim C6: for every markup-embedded document, the result's
`templateBody` is present exactly when a top-level template element exists;
when present it carries the markup collaborator's whole-document tokens,
comments and parse-error lists unchanged, and when no template element
exists the `templateBody` is absent. -/
theorem claimC6_template_body (C : Collaborators) (code : String)
    (options0 : Option (ObjMap JsValue))
    (h : isVueFile code (mergeOptions options0) = true) :
    ((parseForESLint C code options0).ast.templateBody.isSome ↔
      ((C.htmlParse code (mergeOptions options0)).children.find?
        isTemplateElement).isSome) ∧
    (∀ t, (C.htmlParse code (mergeOptions options0)).children.find?
        isTemplateElement = some t →
      (parseForESLint C code options0).ast.templateBody =
        some ⟨t, (C.htmlParse code (mergeOptions options0)).tokens,
                 (C.htmlParse code (mergeOptions options0)).comments,
                 (C.htmlParse code (mergeOptions options0)).errors⟩) ∧
    ((C.htmlParse code (mergeOptions options0)).children.find?
        isTemplateElement = none →
      (parseForESLint C code options0).ast.templateBody = none) := by
  have hP : parseForESLint C code options0 =
      parseVueDocument C code (mergeOptions options0) := by
    show (if isVueFile code (mergeOptions options0) = true then
        parseVueDocument C code (mergeOptions options0)
      else C.parseScript code (mergeOptions options0)) = _
    simp [h]
  rw [hP]
  unfold parseVueDocument
  cases hfind : (C.htmlParse code (mergeOptions options0)).children.find?
      isTemplateElement with
  | some t => simp [hfind]
  | none => simp [hfind]

theorem claimC6_witness :
    ((parseForESLint sampleCollab "<x" none).ast.templateBody.isSome ↔
      ((sampleCollab.htmlParse "<x" (mergeOptions none)).children.find?
        isTemplateElement).isSome) ∧
    (parseForESLint sampleCollab "<x" none).ast.templateBody =
      some ⟨VNode.element "template" (0, 27) [VNode.element "div" (10, 16) []],
            sampleHtml.tokens, sampleHtml.comments, sampleHtml.errors⟩ := by
  have h := claimC6_template_body sampleCollab "<x" none (by decide)
  exact ⟨h.1, h.2.1 _ rfl⟩

/-- Claim C7: for every markup-embedded document, the returned service map
equals the script collaborator's attached services (or an empty map when it
attached none) overlaid with the coordinator's fixed template-traversal
services, where on every key collision the coordinator's entry wins, so the
coordinator's services are always reachable under their canonical names. -/
theorem claimC7_services (C : Collaborators) (code : String)
    (options0 : Option (ObjMap JsValue))
    (h : isVueFile code (mergeOptions options0) = true)
    (hnd : (ObjMap.keys C.services).Nodup) :
    (∀ key, ObjMap.lookup ((parseForESLint C code options0).services.getD []) key =
        (ObjMap.lookup C.services key).orElse
          (fun _ => ObjMap.lookup
            ((scriptDriverResult C code (mergeOptions options0)).services.getD [])
            key)) ∧
    (∀ key v, ObjMap.lookup C.services key = some v →
        ObjMap.lookup ((parseForESLint C code options0).services.getD []) key =
          some v) := by
  have hP : parseForESLint C code options0 =
      parseVueDocument C code (mergeOptions options0) := by
    show (if isVueFile code (mergeOptions options0) = true then
        parseVueDocument C code (mergeOptions options0)
      else C.parseScript code (mergeOptions options0)) = _
    simp [h]
  have main : ∀ key,
      ObjMap.lookup ((parseForESLint C code options0).services.getD []) key =
        (ObjMap.lookup C.services key).orElse
          (fun _ => ObjMap.lookup
            ((scriptDriverResult C code (mergeOptions options0)).services.getD [])
            key) := by
    intro key
    rw [hP]
    unfold parseVueDocument
    simp only [Option.getD_some]
    exact ObjMap.lookup_assign _ C.services key hnd
  refine ⟨main, fun key v hv => ?_⟩
  rw [main key, hv]
  rfl

theorem claimC7_witness :
    ObjMap.lookup ((parseForESLint sampleCollab "<x" none).services.getD [])
        "defineTemplateBodyVisitor" = some 1 ∧
    ObjMap.lookup ((parseForESLint sampleCollab "<x" none).services.getD [])
        "scriptOnly" = some 7 := by
  have h := claimC7_services sampleCollab "<x" none (by decide) (by decide)
  exact ⟨(h.1 "defineTemplateBodyVisitor").trans (by decide),
         (h.1 "scriptOnly").trans (by decide)⟩

/-- Claim C8: for every markup-embedded document with no script block, the
call does not fail (`parseForESLint` is total): the coordinator parses an
empty string with the same merged configuration, and — the script
collaborator yielding an empty well-formed program on the empty string
(§4.3 interface) — the result's script AST has no body statements, no
tokens and no comments. -/
theorem claimC8_no_script (C : Collaborators) (code : String)
    (options0 : Option (ObjMap JsValue))
    (h : isVueFile code (mergeOptions options0) = true)
    (hns : (C.htmlParse code (mergeOptions options0)).children.find?
        isScriptElement = none)
    (hempty : (C.parseScript "" (mergeOptions options0)).ast.body = [] ∧
      (C.parseScript "" (mergeOptions options0)).ast.tokens = [] ∧
      (C.parseScript "" (mergeOptions options0)).ast.comments = []) :
    scriptDriverResult C code (mergeOptions options0) =
        C.parseScript "" (mergeOptions options0) ∧
    (parseForESLint C code options0).ast.body = [] ∧
    (parseForESLint C code options0).ast.tokens = [] ∧
    (parseForESLint C code options0).ast.comments = [] := by
  have hdrv : scriptDriverResult C code (mergeOptions options0) =
      C.parseScript "" (mergeOptions options0) := by
    unfold scriptDriverResult
    simp only [hns]
  have hP : parseForESLint C code options0 =
      parseVueDocument C code (mergeOptions options0) := by
    show (if isVueFile code (mergeOptions options0) = true then
        parseVueDocument C code (mergeOptions options0)
      else C.parseScript code (mergeOptions options0)) = _
    simp [h]
  have hast : (parseForESLint C code options0).ast.body =
        (C.parseScript "" (mergeOptions options0)).ast.body ∧
      (parseForESLint C code options0).ast.tokens =
        (C.parseScript "" (mergeOptions options0)).ast.tokens ∧
      (parseForESLint C code options0).ast.comments =
        (C.parseScript "" (mergeOptions options0)).ast.comments := by
    rw [hP]
    unfold parseVueDocument
    rw [hdrv]
    simp
  exact ⟨hdrv, hast.1.trans hempty.1, hast.2.1.trans hempty.2.1,
    hast.2.2.trans hempty.2.2⟩

theorem claimC8_witness :
    scriptDriverResult sampleCollabNoScript "<x" (mergeOptions none) =
        sampleCollabNoScript.parseScript "" (mergeOptions none) ∧
    (parseForESLint sampleCollabNoScript "<x" none).ast.body = [] ∧
    (parseForESLint sampleCollabNoScript "<x" none).ast.tokens = [] ∧
    (parseForESLint sampleCollabNoScript "<x" none).ast.comments = [] :=
  claimC8_no_script sampleCollabNoScript "<x" none (by decide) rfl ⟨rfl, rfl, rfl⟩

/-- Claim C9: for every document containing both a template and a script
block, the template subtree recorded in the final result is exactly the
element the markup collaborator produced — its source range, name and
children are untouched — and assembly only adds the tokens, comments and
errors fields. -/
theorem claimC9_template_preserved (C : Collaborators) (code : String)
    (options0 : Option (ObjMap JsValue)) (t s : VNode)
    (h : isVueFile code (mergeOptions options0) = true)
    (ht : (C.htmlParse code (mergeOptions options0)).children.find?
        isTemplateElement = some t)
    (_hs : (C.htmlParse code (mergeOptions options0)).children.find?
        isScriptElement = some s) :
    (parseForESLint C code options0).ast.templateBody =
      some ⟨t, (C.htmlParse code (mergeOptions options0)).tokens,
               (C.htmlParse code (mergeOptions options0)).comments,
               (C.htmlParse code (mergeOptions options0)).errors⟩ ∧
    (∀ tb, (parseForESLint C code options0).ast.templateBody = some tb →
      tb.elem = t ∧ tb.elem.rangeOf = t.rangeOf) := by
  have hP : parseForESLint C code options0 =
      parseVueDocument C code (mergeOptions options0) := by
    show (if isVueFile code (mergeOptions options0) = true then
        parseVueDocument C code (mergeOptions options0)
      else C.parseScript code (mergeOptions options0)) = _
    simp [h]
  have hbody : (parseForESLint C code options0).ast.templateBody =
      some ⟨t, (C.htmlParse code (mergeOptions options0)).tokens,
               (C.htmlParse code (mergeOptions options0)).comments,
               (C.htmlParse code (mergeOptions options0)).errors⟩ := by
    rw [hP]
    unfold parseVueDocument
    simp [ht]
  refine ⟨hbody, fun tb htb => ?_⟩
  rw [hbody] at htb
  cases htb
  exact ⟨rfl, rfl⟩

theorem claimC9_witness :
    (parseForESLint sampleCollab "<x" none).ast.templateBody =
      some ⟨VNode.element "template" (0, 27) [VNode.element "div" (10, 16) []],
            sampleHtml.tokens, sampleHtml.comments, sampleHtml.errors⟩ ∧
    (TemplateBody.mk
        (VNode.element "template" (0, 27) [VNode.element "div" (10, 16) []])
        sampleHtml.tokens sampleHtml.comments sampleHtml.errors).elem.rangeOf =
      (0, 27) := by
  have h := claimC9_template_preserved sampleCollab "<x" none
      (VNode.element "template" (0, 27) [VNode.element "div" (10, 16) []])
      (VNode.element "script" (27, 53) [VNode.text (35, 44) "var x = 1"])
      (by decide) rfl rfl
  exact ⟨h.1, ((h.2 _ h.1).2).trans rfl⟩

/-- Claim C3: for every document with a script block — located at a
top-level script element whose inner text `v` spans offsets `[s, e)` of the
document, with `e` at most the document length and `v` of length `e - s` —
if every position the script collaborator reports is local to the given
text (§6), then every node, token and comment range of the result's script
AST is contained in the script content span `[s, e]`; as ranges are
half-open `[start, end)`, every covered position therefore lies within the
whole document's offset range `[0, length)` and none lies inside the spans
`[0, s)` and `[e, length)` consumed by the markup surrounding the script
content. -/
theorem claimC3_positions (C : Collaborators) (code : String)
    (options0 : Option (ObjMap JsValue)) (nm : String) (rng : SrcRange)
    (s e : Nat) (v : String) (rest : List VNode)
    (h : isVueFile code (mergeOptions options0) = true)
    (hfind : (C.htmlParse code (mergeOptions options0)).children.find?
        isScriptElement =
      some (VNode.element nm rng (VNode.text (s, e) v :: rest)))
    (hse : s ≤ e) (hdoc : e ≤ code.length) (hlen : v.length = e - s)
    (hsp : ∀ r ∈ allScriptRanges ((C.parseScript v (mergeOptions options0)).ast),
        r.1 ≤ r.2 ∧ r.2 ≤ v.length) :
    ∀ r ∈ allScriptRanges ((parseForESLint C code options0).ast),
      s ≤ r.1 ∧ r.1 ≤ r.2 ∧ r.2 ≤ e ∧ r.2 ≤ code.length := by
  have hP : parseForESLint C code options0 =
      parseVueDocument C code (mergeOptions options0) := by
    show (if isVueFile code (mergeOptions options0) = true then
        parseVueDocument C code (mergeOptions options0)
      else C.parseScript code (mergeOptions options0)) = _
    simp [h]
  have hdrv : scriptDriverResult C code (mergeOptions options0) =
      parseScriptElement C.parseScript
        (VNode.element nm rng (VNode.text (s, e) v :: rest))
        { gaps := (C.htmlParse code (mergeOptions options0)).gaps,
          lineTerminators :=
            (C.htmlParse code (mergeOptions options0)).lineTerminators }
        (mergeOptions options0) := by
    unfold scriptDriverResult
    simp only [hfind]
  have hranges : allScriptRanges ((parseForESLint C code options0).ast) =
      (allScriptRanges ((C.parseScript v (mergeOptions options0)).ast)).map
        (remapRange
          ⟨[⟨0, s⟩],
           (C.htmlParse code (mergeOptions options0)).lineTerminators⟩) := by
    rw [hP, allScriptRanges_parseVueDocument, hdrv]
    unfold parseScriptElement scriptInner
    exact allScriptRanges_remapProgram _ _
  rw [hranges]
  intro r hr
  obtain ⟨⟨a, b⟩, hab, heq⟩ := List.mem_map.mp hr
  obtain ⟨h1, h2⟩ := hsp _ hab
  have hremap : remapRange
      ⟨[⟨0, s⟩],
       (C.htmlParse code (mergeOptions options0)).lineTerminators⟩ (a, b) =
      (a + s, b + s) := by
    simp [remapRange, toDocumentOffset_single_gap]
  rw [hremap] at heq
  subst heq
  refine ⟨Nat.le_add_left s a, Nat.add_le_add_right h1 s, ?_, ?_⟩ <;> omega

theorem claimC3_witness :
    ((35, 44) ∈ allScriptRanges ((parseForESLint sampleCollab
        "<template><div/></template><script>var x = 1</script>" none).ast)) ∧
    (35 ≤ (35, 44).1 ∧ (35, 44).1 ≤ (35, 44).2 ∧ (35, 44).2 ≤ 44 ∧
      (35, 44).2 ≤
        ("<template><div/></template><script>var x = 1</script>" : String).length) :=
  ⟨by decide,
    claimC3_positions sampleCollab
      "<template><div/></template><script>var x = 1</script>" none
      "script" (27, 53) 35 44 "var x = 1" []
      (by decide) rfl (by decide) (by decide) (by decide) (by decide)
      (35, 44) (by decide)⟩

end VueCoordinator
